import Mathlib

/-!
Verification of the foto-pool credential/configuration layer (`config.py`,
class `BaseConfig`) and remote client (`icloud_client.py`, class
`iCloudClient`) against their natural-language specification.

The Python code is shallowly embedded: the keyring (an external OS secret
store) becomes an explicit association list threaded through the functions
that use it; properties that may raise `ValueError` return `Except String`;
filesystem side effects become explicit state (a list of directories, a list
of write operations); the remote photo service (`pyicloud`) becomes an
explicit environment value describing the outcome of each remote call.
Python `float` fields are modelled as `ℚ` (exact arithmetic), and Python's
true division in the file-size check is `ℚ` division.
-/

/-- Keyring service name for iCloud credentials
(`BaseConfig.ICLOUD_KEYRING_SERVICE_NAME` in `config.py`). -/
def ICLOUD_KEYRING_SERVICE_NAME : String := "icloud-photo-sync"

/-- Keyring service name for Pushover credentials
(`BaseConfig.PUSHOVER_KEYRING_SERVICE_NAME` in `config.py`). -/
def PUSHOVER_KEYRING_SERVICE_NAME : String := "pushover-photo-sync"

/-- The OS keyring, modelled as an association list from (service, key) to the
stored secret.  The embedding models a reliable store: the `except Exception`
branches of the Python wrappers that guard against keyring I/O failure are
therefore never taken. -/
abbrev KeyStore := List ((String × String) × String)

/-- `keyring.get_password(service, key)`: first matching entry, if any. -/
def keyring_get_password (st : KeyStore) (service key : String) : Option String :=
  match st.find? (fun e => e.1.1 == service && e.1.2 == key) with
  | some e => some e.2
  | none => none

/-- `keyring.set_password(service, key, value)`: overwrite any previous entry. -/
def keyring_set_password (st : KeyStore) (service key value : String) : KeyStore :=
  ((service, key), value) :: st.filter (fun e => !(e.1.1 == service && e.1.2 == key))

/-- `keyring.delete_password(service, key)`: remove the entry. -/
def keyring_delete_password (st : KeyStore) (service key : String) : KeyStore :=
  st.filter (fun e => !(e.1.1 == service && e.1.2 == key))

/-- Python truthiness of an `Optional[str]`: `not v` holds for `None` and `""`. -/
def optStrFalsy : Option String → Bool
  | none => true
  | some s => s.data.isEmpty

/-- The fields of `BaseConfig` set in `__init__` (from environment /
config-file keys).  Credential values are not fields: they are read from the
keyring on each property access. -/
structure BaseConfig where
  sync_directory : String
  dry_run : Bool
  log_level : String
  max_downloads : Int
  max_file_size_mb : Int
  pushover_device : String
  enable_pushover : Bool
  include_personal_albums : Bool
  include_shared_albums : Bool
  personal_album_names_to_include : List String
  shared_album_names_to_include : List String
  execution_mode : String
  sync_interval_minutes : ℚ
  maintenance_interval_hours : ℚ
  database_parent_directory : String

/-- `BaseConfig._icloud_get_username_from_store`: keyring lookup of the fixed
identity key `"username"`. -/
def icloud_get_username_from_store (st : KeyStore) : Option String :=
  keyring_get_password st ICLOUD_KEYRING_SERVICE_NAME "username"

/-- Property `BaseConfig.icloud_username`: raises `ValueError` (here
`Except.error`) when the stored value is falsy and `enable_pushover` is set;
otherwise `v or ""`. -/
def icloud_username (cfg : BaseConfig) (st : KeyStore) : Except String String :=
  let v := icloud_get_username_from_store st
  if optStrFalsy v && cfg.enable_pushover then
    Except.error "icloud_username is required (store in keyring)"
  else Except.ok (v.getD "")

/-- `BaseConfig._icloud_get_password_from_store`: reads the `icloud_username`
property (whose `ValueError` is swallowed by the surrounding `try`), then
looks the secret up under that identity value. -/
def icloud_get_password_from_store (cfg : BaseConfig) (st : KeyStore) : Option String :=
  match icloud_username cfg st with
  | Except.error _ => none
  | Except.ok u => keyring_get_password st ICLOUD_KEYRING_SERVICE_NAME u

/-- Property `BaseConfig.icloud_password`. -/
def icloud_password (cfg : BaseConfig) (st : KeyStore) : Except String String :=
  let v := icloud_get_password_from_store cfg st
  if optStrFalsy v && cfg.enable_pushover then
    Except.error "icloud_password is required (store in keyring)"
  else Except.ok (v.getD "")

/-- `BaseConfig._pushover_get_user_key_from_store`: lookup of the fixed
identity key `"user_key"` in the Pushover service namespace. -/
def pushover_get_user_key_from_store (st : KeyStore) : Option String :=
  keyring_get_password st PUSHOVER_KEYRING_SERVICE_NAME "user_key"

/-- Property `BaseConfig.pushover_user_key`. -/
def pushover_user_key (cfg : BaseConfig) (st : KeyStore) : Except String String :=
  let v := pushover_get_user_key_from_store st
  if optStrFalsy v && cfg.enable_pushover then
    Except.error "pushover_user_key is required (store in keyring)"
  else Except.ok (v.getD "")

/-- `BaseConfig._pushover_get_api_token_from_store`. -/
def pushover_get_api_token_from_store (cfg : BaseConfig) (st : KeyStore) : Option String :=
  match pushover_user_key cfg st with
  | Except.error _ => none
  | Except.ok k => keyring_get_password st PUSHOVER_KEYRING_SERVICE_NAME k

/-- Property `BaseConfig.pushover_api_token`. -/
def pushover_api_token (cfg : BaseConfig) (st : KeyStore) : Except String String :=
  let v := pushover_get_api_token_from_store cfg st
  if optStrFalsy v && cfg.enable_pushover then
    Except.error "pushover_api_token is required (store in keyring)"
  else Except.ok (v.getD "")

/-- `BaseConfig.icloud_store_credentials`: store the identity under the fixed
key `"username"`, then the password keyed by the identity value.  (The Python
method also returns `True`; in the reliable-store model it always succeeds.) -/
def icloud_store_credentials (st : KeyStore) (username password : String) : KeyStore :=
  let st1 := keyring_set_password st ICLOUD_KEYRING_SERVICE_NAME "username" username
  keyring_set_password st1 ICLOUD_KEYRING_SERVICE_NAME username password

/-- `BaseConfig.icloud_delete_credentials`: read the stored identity; if
present, delete the password entry then the identity entry. -/
def icloud_delete_credentials (st : KeyStore) : KeyStore :=
  match keyring_get_password st ICLOUD_KEYRING_SERVICE_NAME "username" with
  | some u =>
    let st1 := keyring_delete_password st ICLOUD_KEYRING_SERVICE_NAME u
    keyring_delete_password st1 ICLOUD_KEYRING_SERVICE_NAME "username"
  | none => st

/-- A configuration with every `__init__` field at its documented default
(`ENABLE_PUSHOVER` defaults to true), except that the sync directory is a
concrete absolute path. -/
def testConfig : BaseConfig := {
  sync_directory := "/home/u/photos"
  dry_run := false
  log_level := "INFO"
  max_downloads := 0
  max_file_size_mb := 0
  pushover_device := ""
  enable_pushover := true
  include_personal_albums := true
  include_shared_albums := true
  personal_album_names_to_include := []
  shared_album_names_to_include := []
  execution_mode := "single"
  sync_interval_minutes := 2
  maintenance_interval_hours := 1
  database_parent_directory := ".data"
}

/-- ASCII word character, as in the `\w` class (with `re.ASCII`) used by
`os.path.expandvars`. -/
def isVarChar (c : Char) : Bool := c.isAlphanum || c == '_'

/-- `os.path.expandvars` (POSIX variant), fuelled so that the recursion is
structural: expands `$NAME` and `$\x7bNAME\x7d` occurrences from an
environment, leaves unknown variables and unterminated forms literal, and
leaves `%NAME%` tokens untouched.  Each step consumes at least one character,
so fuel equal to the input length computes the function. -/
def expandvarsFuel (env : String → Option String) : Nat → List Char → List Char
  | 0, l => l
  | fuel+1, l =>
    match l with
    | [] => []
    | '$' :: '{' :: rest2 =>
      (match rest2.dropWhile (fun d => d != '}') with
       | '}' :: rest3 =>
         let name := rest2.takeWhile (fun d => d != '}')
         (match env (String.mk name) with
          | some v => v.data ++ expandvarsFuel env fuel rest3
          | none => '$' :: '{' :: (name ++ '}' :: expandvarsFuel env fuel rest3))
       | _ => '$' :: expandvarsFuel env fuel ('{' :: rest2))
    | '$' :: rest =>
      let name := rest.takeWhile isVarChar
      if name.isEmpty then '$' :: expandvarsFuel env fuel rest
      else
        (match env (String.mk name) with
         | some v => v.data ++ expandvarsFuel env fuel (rest.dropWhile isVarChar)
         | none => '$' :: (name ++ expandvarsFuel env fuel (rest.dropWhile isVarChar)))
    | c :: rest => c :: expandvarsFuel env fuel rest

/-- `os.path.expandvars(s)` with the process environment `env`. -/
def expandvars (env : String → Option String) (s : String) : String :=
  String.mk (expandvarsFuel env s.data.length s.data)

/-- Substring test over character lists (Python `pat in s`). -/
def listContainsInfix (pat : List Char) : List Char → Bool
  | [] => pat.isEmpty
  | c :: rest => pat.isPrefixOf (c :: rest) || listContainsInfix pat rest

/-- `str.replace(pat, rep)` for a nonempty pattern, fuelled so the recursion
is structural: replaces non-overlapping occurrences left to right. -/
def replaceFuel (pat rep : List Char) : Nat → List Char → List Char
  | _, [] => []
  | 0, l => l
  | fuel+1, c :: rest =>
    if pat.isPrefixOf (c :: rest) then
      rep ++ replaceFuel pat rep fuel ((c :: rest).drop pat.length)
    else c :: replaceFuel pat rep fuel rest

/-- `s.replace(pat, rep)` (nonempty `pat`). -/
def strReplace (s pat rep : String) : String :=
  String.mk (replaceFuel pat.data rep.data s.data.length s.data)

/-- `PurePosixPath.is_absolute` for the non-Windows platforms this embedding
models: the path starts with a slash. -/
def isAbsolutePath (p : String) : Bool :=
  match p.data with
  | '/' :: _ => true
  | _ => false

/-- `pathlib`'s `/` operator for a relative right operand. -/
def pathJoin (a b : String) : String := a ++ "/" ++ b

/-- Filesystem directory state, for the `mkdir` side effect. -/
structure FsState where
  dirs : List String
deriving DecidableEq

/-- `Path.mkdir(parents=True, exist_ok=True)`: ensure the directory exists;
idempotent. -/
def mkdirParents (d : String) (fs : FsState) : FsState :=
  if fs.dirs.contains d then fs else ⟨d :: fs.dirs⟩

/-- The Windows local-app-data placeholder recognized by `database_path`. -/
def localappdata_token : String := "%LOCALAPPDATA%"

/-- First half of property `BaseConfig.database_path`: expand environment
variables in `database_parent_directory`, then map a literal
`%LOCALAPPDATA%` to `<home>/.local/share` when not on Windows (`isNt` is
`os.name == 'nt'`; `home` is `os.path.expanduser('~')`). -/
def database_dir_expanded (cfg : BaseConfig) (env : String → Option String)
    (home : String) (isNt : Bool) : String :=
  let expanded := expandvars env cfg.database_parent_directory
  if listContainsInfix localappdata_token.data expanded.data && !isNt then
    strReplace expanded localappdata_token (home ++ "/.local/share")
  else expanded

/-- Second half of property `BaseConfig.database_path`: a relative directory
is resolved against `sync_directory`. -/
def database_dir_resolved (cfg : BaseConfig) (env : String → Option String)
    (home : String) (isNt : Bool) : String :=
  let d := database_dir_expanded cfg env home isNt
  if isAbsolutePath d then d else pathJoin cfg.sync_directory d

/-- Property `BaseConfig.database_path`: resolve the database directory,
create it if missing, and return the full path of the fixed database file
name together with the updated filesystem state. -/
def database_path (cfg : BaseConfig) (env : String → Option String)
    (home : String) (isNt : Bool) (fs : FsState) : String × FsState :=
  let d := database_dir_resolved cfg env home isNt
  (pathJoin d "deletion_tracker.db", mkdirParents d fs)

/-- `BaseConfig.validate`, as the list of collected error strings, in source
order.  `writable` is `os.access(dir, os.W_OK)`.  In this embedding
`database_path` itself cannot raise, so the `except` arm of its try-block is
never taken; the method's directory-creation side effect is dropped here
(claims about it are stated against `database_path` directly). -/
def validate_errors (cfg : BaseConfig) (st : KeyStore) (env : String → Option String)
    (home : String) (isNt : Bool) (writable : String → Bool) : List String :=
  (match icloud_username cfg st with
   | Except.error _ => ["icloud_username is required (store in keyring)"]
   | Except.ok u =>
     if u.data.isEmpty then ["icloud_username is required (store in keyring)"] else [])
  ++ (match icloud_password cfg st with
   | Except.error _ => ["icloud_password is required (store in keyring)"]
   | Except.ok p =>
     if p.data.isEmpty then ["icloud_password is required (store in keyring)"] else [])
  ++ (if ["DEBUG", "INFO", "WARNING", "ERROR"].contains cfg.log_level then []
      else ["Invalid LOG_LEVEL: " ++ cfg.log_level])
  ++ (if cfg.enable_pushover then
        (match pushover_api_token cfg st with
         | Except.error _ => ["PUSHOVER_API_TOKEN is required when ENABLE_PUSHOVER=true"]
         | Except.ok t =>
           if t.data.isEmpty then
             ["PUSHOVER_API_TOKEN is required when ENABLE_PUSHOVER=true"] else [])
        ++ (match pushover_user_key cfg st with
         | Except.error _ => ["PUSHOVER_USER_KEY is required when ENABLE_PUSHOVER=true"]
         | Except.ok k =>
           if k.data.isEmpty then
             ["PUSHOVER_USER_KEY is required when ENABLE_PUSHOVER=true"] else [])
      else [])
  ++ (if !cfg.include_personal_albums && !cfg.include_shared_albums then
        ["At least one of INCLUDE_PERSONAL_ALBUMS or INCLUDE_SHARED_ALBUMS must be true"]
      else [])
  ++ (if ["single", "continuous"].contains cfg.execution_mode then []
      else ["Invalid EXECUTION_MODE: " ++ cfg.execution_mode ++
            ". Must be \x27single\x27 or \x27continuous\x27"])
  ++ (if cfg.sync_interval_minutes ≤ 0 then
        ["SYNC_INTERVAL_MINUTES must be bigger than 0 minutes"] else [])
  ++ (if cfg.maintenance_interval_hours ≤ 0 then
        ["MAINTENANCE_INTERVAL_HOURS must be bigger than 0 hours"] else [])
  ++ (if cfg.maintenance_interval_hours * 60 ≤ cfg.sync_interval_minutes then
        ["MAINTENANCE_INTERVAL_HOURS * 60 must be bigger than SYNC_INTERVAL_MINUTES"]
      else [])
  ++ (if writable (database_dir_resolved cfg env home isNt) then []
      else ["Database directory is not writable: " ++ database_dir_resolved cfg env home isNt])

/-- `BaseConfig.validate`: raises `ValueError` with all collected messages
joined when any check failed. -/
def validate (cfg : BaseConfig) (st : KeyStore) (env : String → Option String)
    (home : String) (isNt : Bool) (writable : String → Bool) : Except String Unit :=
  let errors := validate_errors cfg st env home isNt writable
  if errors.isEmpty then Except.ok ()
  else Except.error ("Configuration errors: " ++ String.intercalate ", " errors)

/-- One entry of `iCloudClient.list_photos()` (the descriptor consumed by
`download_photo`); the opaque `photo_obj` handle is modelled by the download
environment below. -/
structure PhotoInfo where
  id : String
  filename : String
  size : Nat
deriving DecidableEq

/-- The condition of `download_photo`'s size gate:
`max_file_size_mb > 0` and `size / (1024 * 1024) > max_file_size_mb`
(Python true division, exact over `ℚ`). -/
def size_exceeds_limit (max_mb : Int) (size : Nat) : Prop :=
  max_mb > 0 ∧ (size : ℚ) / (1024 * 1024) > (max_mb : ℚ)

/-- The size gate is equivalent to an integer comparison (clearing the
positive denominator), which keeps it executable. -/
theorem size_exceeds_limit_iff (max_mb : Int) (size : Nat) :
    size_exceeds_limit max_mb size ↔ max_mb > 0 ∧ (size : Int) > max_mb * (1024 * 1024) := by
  unfold size_exceeds_limit
  apply and_congr_right
  intro _
  rw [gt_iff_lt, gt_iff_lt, lt_div_iff₀ (by norm_num : (0:ℚ) < 1024 * 1024)]
  constructor <;> intro h <;> exact_mod_cast h

instance (max_mb : Int) (size : Nat) : Decidable (size_exceeds_limit max_mb size) :=
  decidable_of_iff _ (size_exceeds_limit_iff max_mb size).symm

/-- The four `return` sites of `iCloudClient.download_photo`, in source
order: the size-gate skip (returns `False`), the dry-run no-op (returns
`True`), a completed download (returns `True`), and the catch-all `except`
arm (returns `False`). -/
inductive DlOutcome where
  | skippedBySize
  | dryRunNoop
  | downloaded
  | failed
deriving DecidableEq

/-- The boolean each outcome is collapsed to by the Python function's
`return` statements. -/
def outcomeBool : DlOutcome → Bool
  | DlOutcome.skippedBySize => false
  | DlOutcome.dryRunNoop => true
  | DlOutcome.downloaded => true
  | DlOutcome.failed => false

/-- A filesystem write effect: `open(local_path, 'wb')` followed by
`f.write(...)`. -/
inductive FsOp where
  | write (path : String) (bytes : List Nat)
deriving DecidableEq

/-- Environment of one `download_photo` call: the outcome of
`photo.download().raw.read()` (`none` models a raised remote-fetch
exception) and whether opening the destination for writing succeeds. -/
structure DlEnv where
  fetch : Option (List Nat)
  openOk : Bool
deriving DecidableEq

/-- `iCloudClient.download_photo`, instrumented with the branch taken and the
list of filesystem effects performed: the size gate is checked first, then
dry-run, then the fetch-and-write path whose exceptions are caught and
collapsed to `failed`. -/
def download_photo (cfg : BaseConfig) (p : PhotoInfo) (env : DlEnv)
    (local_path : String) : DlOutcome × List FsOp :=
  if size_exceeds_limit cfg.max_file_size_mb p.size then
    (DlOutcome.skippedBySize, [])
  else if cfg.dry_run then
    (DlOutcome.dryRunNoop, [])
  else
    match env.fetch with
    | none => (DlOutcome.failed, [])
    | some bytes =>
      if env.openOk then (DlOutcome.downloaded, [FsOp.write local_path bytes])
      else (DlOutcome.failed, [])

/-- The value actually returned to the caller of `download_photo`: a single
`bool`. -/
def download_photo_bool (cfg : BaseConfig) (p : PhotoInfo) (env : DlEnv)
    (local_path : String) : Bool :=
  outcomeBool (download_photo cfg p env local_path).1

/-- Outcome of the `PyiCloudService` constructor together with the
`self._api.photos` access that `authenticate` uses to self-verify: a nominal
login success carries whether the photos capability is truthy/reachable; the
three exception arms mirror `PyiCloudFailedLoginException`,
`PyiCloudAPIResponseException` and the catch-all `except Exception`. -/
inductive LoginResult where
  | success (photosTruthy : Bool)
  | failedLogin
  | apiError
  | unexpected
deriving DecidableEq

/-- The `_api` session object, reduced to what the embedded methods observe. -/
structure ApiSession where
  photosTruthy : Bool
deriving DecidableEq

/-- `iCloudClient.authenticate`: short-circuit credential check (each
property access may itself raise, which the catch-all arm turns into
`False`), then the constructor/photos outcomes.  Returns the boolean result
and the new `_api` field (unchanged when the constructor raised). -/
def authenticate (cfg : BaseConfig) (st : KeyStore) (login : LoginResult)
    (api : Option ApiSession) : Bool × Option ApiSession :=
  match icloud_username cfg st with
  | Except.error _ => (false, api)
  | Except.ok u =>
    if u.data.isEmpty then (false, api)
    else
      match icloud_password cfg st with
      | Except.error _ => (false, api)
      | Except.ok p =>
        if p.data.isEmpty then (false, api)
        else
          match login with
          | LoginResult.failedLogin => (false, api)
          | LoginResult.apiError => (false, api)
          | LoginResult.unexpected => (false, api)
          | LoginResult.success photosTruthy =>
            if photosTruthy then (true, some ⟨photosTruthy⟩)
            else (false, some ⟨photosTruthy⟩)

/-- `iCloudClient.handle_2fa`: result boolean, paired with whether the remote
`validate_2fa_code` was invoked at all.  The remote call is modelled by
`validate2fa` (`Except.error` models a raised exception, which the method
catches and turns into `False`); with no session it returns `False` without
any remote call. -/
def handle_2fa (api : Option ApiSession) (validate2fa : String → Except Unit Bool)
    (code : String) : Bool × Bool :=
  match api with
  | none => (false, false)
  | some _ =>
    match validate2fa code with
    | Except.ok r => (r, true)
    | Except.error _ => (false, true)

/-- The default configuration with notifications (Pushover) disabled. -/
def noPushoverConfig : BaseConfig := { testConfig with enable_pushover := false }

/-- An asset of 15 MB. -/
def bigPhoto : PhotoInfo := { id := "p1", filename := "big.jpg", size := 15 * 1024 * 1024 }

/-- An asset of 1 KB. -/
def smallPhoto : PhotoInfo := { id := "p2", filename := "small.jpg", size := 1024 }

/-- A 10 MB size limit, otherwise defaults. -/
def downloadConfig : BaseConfig := { testConfig with max_file_size_mb := 10 }

/-- Dry-run mode together with a 10 MB size limit. -/
def dryRunOversizeConfig : BaseConfig :=
  { testConfig with dry_run := true, max_file_size_mb := 10 }

/-- C1: the claim says accessing the service-username / service-password
credential with the store unset fails regardless of the notifications flag.
In the code the `ValueError` of `icloud_username` / `icloud_password` is
gated on `enable_pushover`: with notifications disabled and an empty store
both accessors return `ok ""` instead of failing, while with notifications
enabled they fail — and `validate` still reports the service credentials as
required even when notifications are disabled, contradicting the accessors'
gating. -/
theorem icloud_credentials_not_required_when_pushover_disabled :
    icloud_username noPushoverConfig [] = Except.ok "" ∧
    icloud_password noPushoverConfig [] = Except.ok "" ∧
    icloud_username testConfig [] =
      Except.error "icloud_username is required (store in keyring)" ∧
    icloud_password testConfig [] =
      Except.error "icloud_password is required (store in keyring)" ∧
    "icloud_username is required (store in keyring)" ∈
      validate_errors noPushoverConfig [] (fun _ => none) "/home/u" false (fun _ => true) ∧
    "icloud_password is required (store in keyring)" ∈
      validate_errors noPushoverConfig [] (fun _ => none) "/home/u" false (fun _ => true) :=
  ⟨rfl, rfl, rfl, rfl, by decide, by decide⟩

/-- C2: `validate` never stops at the first violation: whenever the log level
is invalid its message is in the returned list, whenever the execution mode
is invalid its message is in the returned list (so both are reported together
by one call when both are wrong), and the raised failure aggregates the whole
list in one message. -/
theorem validate_reports_all_failures (cfg : BaseConfig) (st : KeyStore)
    (env : String → Option String) (home : String) (isNt : Bool) (writable : String → Bool)
    (hlog : (["DEBUG", "INFO", "WARNING", "ERROR"].contains cfg.log_level) = false)
    (hmode : (["single", "continuous"].contains cfg.execution_mode) = false) :
    ("Invalid LOG_LEVEL: " ++ cfg.log_level) ∈
      validate_errors cfg st env home isNt writable ∧
    ("Invalid EXECUTION_MODE: " ++ cfg.execution_mode ++
        ". Must be \x27single\x27 or \x27continuous\x27") ∈
      validate_errors cfg st env home isNt writable ∧
    validate cfg st env home isNt writable =
      Except.error ("Configuration errors: " ++
        String.intercalate ", " (validate_errors cfg st env home isNt writable)) := by
  have hlog' : ¬cfg.log_level = "DEBUG" ∧ ¬cfg.log_level = "INFO" ∧
      ¬cfg.log_level = "WARNING" ∧ ¬cfg.log_level = "ERROR" := by simpa using hlog
  have hmode' : ¬cfg.execution_mode = "single" ∧ ¬cfg.execution_mode = "continuous" := by
    simpa using hmode
  have h1 : ("Invalid LOG_LEVEL: " ++ cfg.log_level) ∈
      validate_errors cfg st env home isNt writable := by
    unfold validate_errors
    simp
    exact Or.inr (Or.inr (Or.inl hlog'))
  have h2 : ("Invalid EXECUTION_MODE: " ++ cfg.execution_mode ++
      ". Must be \x27single\x27 or \x27continuous\x27") ∈
      validate_errors cfg st env home isNt writable := by
    unfold validate_errors
    simp
    exact Or.inr (Or.inr (Or.inr (Or.inr (Or.inr (Or.inl hmode')))))
  refine ⟨h1, h2, ?_⟩
  have hne : (validate_errors cfg st env home isNt writable).isEmpty = false := by
    cases h : validate_errors cfg st env home isNt writable with
    | nil => rw [h] at h1; exact absurd h1 (List.not_mem_nil _)
    | cons a l => rfl
  unfold validate
  simp [hne]

/-- C2 witness: a configuration whose log level and execution mode are both
invalid yields both messages from the same call. -/
theorem validate_reports_all_failures_witness :
    ((["DEBUG", "INFO", "WARNING", "ERROR"].contains "VERBOSE") = false) ∧
    ((["single", "continuous"].contains "both") = false) ∧
    ("Invalid LOG_LEVEL: " ++ "VERBOSE") ∈
      validate_errors { testConfig with log_level := "VERBOSE", execution_mode := "both" }
        [] (fun _ => none) "/home/u" false (fun _ => true) ∧
    ("Invalid EXECUTION_MODE: " ++ "both" ++ ". Must be \x27single\x27 or \x27continuous\x27") ∈
      validate_errors { testConfig with log_level := "VERBOSE", execution_mode := "both" }
        [] (fun _ => none) "/home/u" false (fun _ => true) :=
  ⟨by decide, by decide,
    (validate_reports_all_failures _ [] (fun _ => none) "/home/u" false (fun _ => true)
      (by decide) (by decide)).1,
    (validate_reports_all_failures _ [] (fun _ => none) "/home/u" false (fun _ => true)
      (by decide) (by decide)).2.1⟩

/-- C3: an asset over a configured positive size limit is skipped by size and
the call performs no filesystem operation. -/
theorem download_photo_skips_oversized (cfg : BaseConfig) (p : PhotoInfo) (env : DlEnv)
    (local_path : String) (hmax : cfg.max_file_size_mb > 0)
    (hsize : (p.size : ℚ) / (1024 * 1024) > (cfg.max_file_size_mb : ℚ)) :
    download_photo cfg p env local_path = (DlOutcome.skippedBySize, []) := by
  unfold download_photo
  rw [if_pos (show size_exceeds_limit cfg.max_file_size_mb p.size from ⟨hmax, hsize⟩)]

/-- C3 witness: a 15 MB asset against a 10 MB limit. -/
theorem download_photo_skips_oversized_witness :
    download_photo downloadConfig bigPhoto ⟨some [7], true⟩ "/home/u/photos/big.jpg" =
      (DlOutcome.skippedBySize, []) :=
  download_photo_skips_oversized _ _ _ _ (by decide)
    ((by decide : size_exceeds_limit (10:Int) (15 * 1024 * 1024)).2)

/-- C4 counterexample: with `dry_run` set, a 15 MB asset under a 10 MB limit
does not produce the dry-run no-op result — the size gate fires first — so
the claim that every dry-run call returns the no-op result is false. -/
theorem download_photo_dry_run_oversized_not_noop :
    dryRunOversizeConfig.dry_run = true ∧
    (download_photo dryRunOversizeConfig bigPhoto ⟨some [7], true⟩
        "/home/u/photos/big.jpg").1 ≠ DlOutcome.dryRunNoop := by
  decide

/-- C4 (amended): with `dry_run` set the call performs no filesystem
operation, and whenever the size gate does not fire it returns the dry-run
no-op result. -/
theorem download_photo_dry_run_noop (cfg : BaseConfig) (p : PhotoInfo) (env : DlEnv)
    (local_path : String) (hdry : cfg.dry_run = true) :
    (download_photo cfg p env local_path).2 = [] ∧
    (¬ size_exceeds_limit cfg.max_file_size_mb p.size →
      download_photo cfg p env local_path = (DlOutcome.dryRunNoop, [])) := by
  unfold download_photo
  by_cases h : size_exceeds_limit cfg.max_file_size_mb p.size
  · rw [if_pos h]
    exact ⟨rfl, fun hn => absurd h hn⟩
  · rw [if_neg h, if_pos hdry]
    exact ⟨rfl, fun _ => rfl⟩

/-- C4 witness: a dry-run call on a 1 KB asset under a 10 MB limit. -/
theorem download_photo_dry_run_noop_witness :
    dryRunOversizeConfig.dry_run = true ∧
    download_photo dryRunOversizeConfig smallPhoto ⟨some [7], true⟩
      "/home/u/photos/small.jpg" = (DlOutcome.dryRunNoop, []) :=
  ⟨by decide, (download_photo_dry_run_noop _ _ _ _ (by decide)).2 (by decide)⟩

/-- C5: the size gate precedes the dry-run gate: when both apply, the result
is the skip-by-size outcome, not the dry-run no-op, and nothing is written. -/
theorem download_photo_size_gate_precedes_dry_run (cfg : BaseConfig) (p : PhotoInfo)
    (env : DlEnv) (local_path : String) (_hdry : cfg.dry_run = true)
    (hmax : cfg.max_file_size_mb > 0)
    (hsize : (p.size : ℚ) / (1024 * 1024) > (cfg.max_file_size_mb : ℚ)) :
    download_photo cfg p env local_path = (DlOutcome.skippedBySize, []) ∧
    (download_photo cfg p env local_path).1 ≠ DlOutcome.dryRunNoop := by
  have he : download_photo cfg p env local_path = (DlOutcome.skippedBySize, []) := by
    unfold download_photo
    rw [if_pos (show size_exceeds_limit cfg.max_file_size_mb p.size from ⟨hmax, hsize⟩)]
  refine ⟨he, ?_⟩
  rw [he]
  decide

/-- C5 witness: dry-run with a 15 MB asset against a 10 MB limit. -/
theorem download_photo_size_gate_precedes_dry_run_witness :
    download_photo dryRunOversizeConfig bigPhoto ⟨some [7], true⟩ "/home/u/photos/big.jpg" =
      (DlOutcome.skippedBySize, []) ∧
    (download_photo dryRunOversizeConfig bigPhoto ⟨some [7], true⟩ "/home/u/photos/big.jpg").1
      ≠ DlOutcome.dryRunNoop :=
  download_photo_size_gate_precedes_dry_run _ _ _ _ (by decide) (by decide)
    ((by decide : size_exceeds_limit (10:Int) (15 * 1024 * 1024)).2)

/-- C6: the database path is the resolved directory plus the fixed file name
`deletion_tracker.db`; the resolved directory exists in the filesystem state
after the call; a relative expanded directory is resolved against
`sync_directory`; the example `.data` under `/home/u/photos` resolves to
`/home/u/photos/.data/deletion_tracker.db`; and a `%LOCALAPPDATA%` parent is
mapped under the user's home on a non-Windows platform. -/
theorem database_path_resolution :
    (∀ cfg env home isNt fs,
      (database_path cfg env home isNt fs).1 =
        pathJoin (database_dir_resolved cfg env home isNt) "deletion_tracker.db") ∧
    (∀ cfg env home isNt fs,
      ((database_path cfg env home isNt fs).2.dirs.contains
        (database_dir_resolved cfg env home isNt)) = true) ∧
    (∀ cfg env home isNt,
      isAbsolutePath (database_dir_expanded cfg env home isNt) = false →
        database_dir_resolved cfg env home isNt =
          pathJoin cfg.sync_directory (database_dir_expanded cfg env home isNt)) ∧
    (database_path testConfig (fun _ => none) "/home/u" false ⟨[]⟩).1 =
      "/home/u/photos/.data/deletion_tracker.db" ∧
    (database_path { testConfig with database_parent_directory := "%LOCALAPPDATA%/foto_pool" }
        (fun _ => none) "/home/u" false ⟨[]⟩).1 =
      "/home/u/.local/share/foto_pool/deletion_tracker.db" := by
  refine ⟨fun cfg env home isNt fs => rfl, fun cfg env home isNt fs => ?_,
    fun cfg env home isNt h => ?_, rfl, rfl⟩
  · show (mkdirParents (database_dir_resolved cfg env home isNt) fs).dirs.contains _ = true
    unfold mkdirParents
    split
    · assumption
    · simp
  · simp [database_dir_resolved, h]

/-- C6 witness: the `.data` example satisfies the relative-path hypothesis. -/
theorem database_path_resolution_witness :
    isAbsolutePath (database_dir_expanded testConfig (fun _ => none) "/home/u" false) = false ∧
    database_dir_resolved testConfig (fun _ => none) "/home/u" false =
      pathJoin testConfig.sync_directory
        (database_dir_expanded testConfig (fun _ => none) "/home/u" false) :=
  ⟨by decide,
    database_path_resolution.2.2.1 testConfig (fun _ => none) "/home/u" false (by decide)⟩

/-- C7: storing identity `alice` and the secret under key `alice` makes the
two-stage resolution return the secret; after deleting the identity entry,
resolution fails — but only while `enable_pushover` is set: with
notifications disabled the same gating slip as in C1 makes it return `ok ""`
instead of failing. -/
theorem icloud_credential_roundtrip_revocation :
    (icloud_username testConfig (icloud_store_credentials [] "alice" "s3cret") =
      Except.ok "alice") ∧
    (icloud_password testConfig (icloud_store_credentials [] "alice" "s3cret") =
      Except.ok "s3cret") ∧
    (icloud_password noPushoverConfig (icloud_store_credentials [] "alice" "s3cret") =
      Except.ok "s3cret") ∧
    (icloud_password testConfig
      (keyring_delete_password (icloud_store_credentials [] "alice" "s3cret")
        ICLOUD_KEYRING_SERVICE_NAME "username") =
      Except.error "icloud_password is required (store in keyring)") ∧
    (icloud_password noPushoverConfig
      (keyring_delete_password (icloud_store_credentials [] "alice" "s3cret")
        ICLOUD_KEYRING_SERVICE_NAME "username") = Except.ok "") :=
  ⟨rfl, rfl, rfl, rfl, rfl⟩

/-- C8: `authenticate` returns `false` for a failed login, a remote-API
error, an unexpected failure, and a nominal success whose photo-listing
capability is unreachable — in fact for every call whose remote outcome is
not a success with reachable photos, its result is `false`; it never raises
(it is a total function into `Bool`). -/
theorem authenticate_never_true_without_photos (cfg : BaseConfig) (st : KeyStore)
    (api : Option ApiSession) :
    ((authenticate cfg st LoginResult.failedLogin api).1 = false) ∧
    ((authenticate cfg st LoginResult.apiError api).1 = false) ∧
    ((authenticate cfg st LoginResult.unexpected api).1 = false) ∧
    ((authenticate cfg st (LoginResult.success false) api).1 = false) ∧
    (∀ login, login ≠ LoginResult.success true →
      (authenticate cfg st login api).1 = false) := by
  have key : ∀ login, login ≠ LoginResult.success true →
      (authenticate cfg st login api).1 = false := by
    intro login hne
    unfold authenticate
    repeat' split <;> try rfl
    all_goals simp_all
  exact ⟨key _ (by decide), key _ (by decide), key _ (by decide), key _ (by decide), key⟩

/-- C8 witness: a failed login with an empty credential store. -/
theorem authenticate_never_true_without_photos_witness :
    LoginResult.failedLogin ≠ LoginResult.success true ∧
    (authenticate testConfig [] LoginResult.failedLogin none).1 = false :=
  ⟨by decide, (authenticate_never_true_without_photos testConfig [] none).2.2.2.2
    LoginResult.failedLogin (by decide)⟩

/-- C9: `handle_2fa` returns `false` without any remote call when no session
exists, and returns `false` when the remote rejects the code or the
validation raises; it never raises (it is a total function into `Bool`). -/
theorem handle_2fa_failure_modes (validate2fa : String → Except Unit Bool) (code : String)
    (api : ApiSession) :
    handle_2fa none validate2fa code = (false, false) ∧
    (validate2fa code = Except.error () →
      (handle_2fa (some api) validate2fa code).1 = false) ∧
    (validate2fa code = Except.ok false →
      (handle_2fa (some api) validate2fa code).1 = false) := by
  refine ⟨rfl, ?_, ?_⟩ <;> intro h <;> simp [handle_2fa, h]

/-- C9 witness: a remote whose validation raises. -/
theorem handle_2fa_failure_modes_witness :
    ((fun _ : String => (Except.error () : Except Unit Bool)) "000000" = Except.error ()) ∧
    (handle_2fa (some ⟨true⟩) (fun _ => Except.error ()) "000000").1 = false :=
  ⟨rfl, (handle_2fa_failure_modes (fun _ => Except.error ()) "000000" ⟨true⟩).2.1 rfl⟩

/-- C10: the caller of `download_photo` sees only a single boolean: the
skip-by-size outcome yields `false`, the same value as a failed download,
and the dry-run no-op yields `true`, the same value as a completed
download — the outcome kinds are not distinguishable from the returned
value. -/
theorem download_photo_boolean_collapse :
    (∀ cfg p env local_path,
      download_photo_bool cfg p env local_path =
        outcomeBool (download_photo cfg p env local_path).1) ∧
    (download_photo downloadConfig bigPhoto ⟨some [7], true⟩ "/x").1 =
      DlOutcome.skippedBySize ∧
    (download_photo downloadConfig smallPhoto ⟨none, true⟩ "/x").1 = DlOutcome.failed ∧
    download_photo_bool downloadConfig bigPhoto ⟨some [7], true⟩ "/x" = false ∧
    download_photo_bool downloadConfig smallPhoto ⟨none, true⟩ "/x" = false ∧
    (download_photo dryRunOversizeConfig smallPhoto ⟨some [7], true⟩ "/x").1 =
      DlOutcome.dryRunNoop ∧
    (download_photo downloadConfig smallPhoto ⟨some [7], true⟩ "/x").1 =
      DlOutcome.downloaded ∧
    download_photo_bool dryRunOversizeConfig smallPhoto ⟨some [7], true⟩ "/x" = true ∧
    download_photo_bool downloadConfig smallPhoto ⟨some [7], true⟩ "/x" = true :=
  ⟨fun _ _ _ _ => rfl, by decide⟩
